import Mathlib

/-!
Shallow embedding of the credential-lifecycle engine of elna-external-service:
the Lambda handlers in src/jwt-auth/deployment/user-manager/index.js and the
companion authorizer in src/jwt-auth/deployment/jwt-validator/index.js.

Modelling conventions:
* Epoch times are `Int` milliseconds (JS `Date.now()`).
* JWTs are symbolic: a token records its subject, its `exp` claim in seconds
  (jsonwebtoken computes `exp = floor(nowMs/1000) + ttlSec`), and the secret
  it was signed with.  `jwt.verify(token, key)` succeeds exactly when the
  recorded signing secret equals `key` and `floor(nowMs/1000) < exp`, which is
  the standard unforgeability reading of HMAC-signed JWTs.
* The AES-256-CBC nonce carrier produced by createNonce is symbolic on the
  user-manager side: a `Carrier` records the plaintext pair `(nonce, issuedAt)`
  that encryption embeds and decryption recovers (the nonce is base64 text, so
  the `split(":")` in the source recovers exactly this pair).  The IV and
  GM_TYPE environment variables are assumed present (their absence throws at
  `Buffer.from` and is mapped to 500 by the catch; not modelled).
* The jwt-validator key derivation really encrypts, so AES-256-CBC is
  implemented concretely further below for that component.
* DynamoDB: `put` replaces the whole item for the key, `update` with a SET
  expression merges the listed attributes and creates the item if absent.
* tweetnacl `sign.detached.verify` checks the byte lengths (64 and 32) and
  throws on mismatch; the ed25519 curve arithmetic itself is abstracted as an
  oracle argument `String → List Nat → List Nat → Bool` giving the verdict on
  well-sized inputs.
-/

namespace Elna

/-- Symbolic JWT: subject, `exp` claim (seconds since epoch), and the secret
the token was signed with. -/
structure Jwt where
  sub : String
  expSec : Int
  key : String
deriving Repr, DecidableEq

/-- Models `jwt.sign(\x7b sub \x7d, key, \x7b expiresIn \x7d)` called at time `nowMs`:
jsonwebtoken sets `exp = floor(nowMs / 1000) + ttlSec`. -/
def jwtSign (sub key : String) (nowMs ttlSec : Int) : Jwt :=
  { sub := sub, expSec := Int.ediv nowMs 1000 + ttlSec, key := key }

/-- Models a successful `jwt.verify(token, key)` at time `nowMs`: the signing
secret must match and jsonwebtoken rejects the token once
`floor(nowMs / 1000) >= exp`. -/
abbrev jwtValid (t : Jwt) (key : String) (nowMs : Int) : Prop :=
  t.key = key ∧ Int.ediv nowMs 1000 < t.expSec

/-- DynamoDB item of the Users table.  Attributes other than the key are
optional because `put` stores exactly the attributes of its `Item` argument. -/
structure Record where
  publicKey : String
  nonce : Option String
  refreshToken : Option Jwt
  createdAt : Option Int
  updatedAt : Option Int
deriving Repr, DecidableEq

/-- The Users table: a list of items with unique `publicKey` keys. -/
abbrev Store := List Record

/-- Models `dynamoDB.get` by primary key. -/
def Store.get (s : Store) (k : String) : Option Record :=
  s.find? (fun r => r.publicKey == k)

/-- Models `dynamoDB.put`: the stored item for the key is replaced wholesale
by the given item. -/
def Store.put (s : Store) (r : Record) : Store :=
  r :: s.filter (fun x => !(x.publicKey == r.publicKey))

/-- Models the `dynamoDB.update` call of the refresh handler:
`SET refreshToken = :refreshToken, updatedAt = :updatedAt` merges the two
attributes into the existing item, or creates the item when absent. -/
def Store.updateRefresh (s : Store) (k : String) (tok : Jwt) (nowMs : Int) : Store :=
  match s.get k with
  | some r => Store.put s { r with refreshToken := some tok, updatedAt := some nowMs }
  | none => Store.put s
      { publicKey := k, nonce := none, refreshToken := some tok,
        createdAt := none, updatedAt := some nowMs }

/-- Encrypted nonce carrier (the `auth-nonce` cookie value), symbolic on the
user-manager side: AES-256-CBC deterministically embeds and recovers the
plaintext `nonce ++ ":" ++ issuedAt`, which `split(":")` separates again. -/
structure Carrier where
  nonce : String
  issuedAt : Int
deriving Repr, DecidableEq

/-- HTTP-level response of the user-manager handlers, with the body fields and
cookies the source can emit. -/
structure Response where
  statusCode : Nat
  error : Option String := none
  message : Option String := none
  accessToken : Option Jwt := none
  nonceBody : Option String := none
  setNonceCookie : Option Carrier := none
  setRefreshCookie : Option Jwt := none
  userBody : Option (String × Option Int × Option Int) := none
deriving Repr, DecidableEq

/-- Server-wide configuration of the user-manager Lambda. -/
structure Config where
  accessTokenSecret : String
deriving Repr, DecidableEq

/-- Source src/jwt-auth/deployment/user-manager/index.js lines 19-21: the
per-identity JWT signing secret is the server secret concatenated with
`publicKey.substring(0, 8)`. -/
def encodePublicKey (secret publicKey : String) : String :=
  secret ++ publicKey.take 8

/-- Base58 alphabet of the bs58 package. -/
def b58Alphabet : List Char :=
  "123456789ABCDEFGHJKLMNPQRSTUVWXYZabcdefghijkmnopqrstuvwxyz".toList

/-- Accumulates the base58 big-number value of a character list, `none` on a
character outside the alphabet (bs58 throws in that case). -/
def bs58Value (cs : List Char) : Option Nat :=
  cs.foldl
    (fun acc c =>
      match acc, b58Alphabet.indexOf? c with
      | some v, some i => some (v * 58 + i)
      | _, _ => none)
    (some 0)

/-- Big-endian byte expansion with an explicit fuel bound, kept structurally
recursive so that the kernel can evaluate it. -/
def natToBytesFuel : Nat → Nat → List Nat
  | 0, _ => []
  | _ + 1, 0 => []
  | fuel + 1, n => natToBytesFuel fuel (n / 256) ++ [n % 256]

/-- Big-endian byte expansion of a natural number (empty for zero); `n` itself
bounds the number of base-256 digits, so it serves as fuel. -/
def natToBytes (n : Nat) : List Nat := natToBytesFuel n n

/-- Models `bs58.decode`: leading alphabet-zero characters become zero bytes,
the rest is interpreted as a base58 big number; a character outside the
alphabet makes the library throw. -/
def bs58decode (s : String) : Except String (List Nat) :=
  match bs58Value s.toList with
  | none => Except.error "Non-base58 character"
  | some v =>
      Except.ok (List.replicate ((s.toList.takeWhile (fun c => c == '1')).length) 0
        ++ natToBytes v)

/-- Models tweetnacl `nacl.sign.detached.verify`: the library throws
"bad signature size" unless the signature is 64 bytes and "bad public key
size" unless the key is 32 bytes; on well-sized inputs the ed25519 verdict is
given by the `oracle` parameter. -/
def naclDetachedVerify (oracle : String → List Nat → List Nat → Bool)
    (message : String) (sig pk : List Nat) : Except String Bool :=
  if sig.length ≠ 64 then Except.error "bad signature size"
  else if pk.length ≠ 32 then Except.error "bad public key size"
  else Except.ok (oracle message sig pk)

/-- Canonical challenge message template of user-manager/index.js lines
283-293, interpolating nonce, public key and the client-supplied ISO
timestamp. -/
def challengeMessage (nonce publicKey isoTimestamp : String) : String :=
  "\nWelcome to DeFi agent!\n\nPlease sign this message to authenticate your wallet and log in.\n\n- Nonce: "
    ++ nonce
    ++ "\n- Solana account: "
    ++ publicKey
    ++ "\n- Issued at: "
    ++ isoTimestamp
    ++ "\n\nSigning is the only way that you are the owner of the wallet you are connecting. Signing is safe, gas-less transaction that does not in any way give DeFi agnet permission to perform any transaction with your wallet.\n"

deriving instance DecidableEq for Except

/-- Request body of POST /tokens. -/
structure AuthRequest where
  publicKey : Option String
  signature : Option String
  nonce : Option String
  isoTimestamp : Option String
deriving Repr, DecidableEq

/-- Models POST /nonce (user-manager createNonce): the fresh random nonce and
the current time are passed in as parameters.  The handler upserts the item
with `put` (replacing any existing item for the key) and returns the nonce in
the body plus the encrypted carrier as the auth-nonce cookie. -/
def createNonce (body : Option String) (freshNonce : String) (store : Store)
    (nowMs : Int) : Response × Store :=
  match body with
  | none => ({ statusCode := 400, error := some "Missing publicKey" }, store)
  | some pk =>
      if pk = "" then
        ({ statusCode := 400, error := some "Missing publicKey" }, store)
      else
        ({ statusCode := 200, nonceBody := some freshNonce,
           setNonceCookie := some { nonce := freshNonce, issuedAt := nowMs } },
         Store.put store
           { publicKey := pk, nonce := some freshNonce, refreshToken := none,
             createdAt := some nowMs, updatedAt := some nowMs })

/-- Models POST /tokens (user-manager generateTokens): field presence checks
(JS falsy, so empty strings count as missing), auth-nonce cookie lookup,
decrypt-and-compare of the carrier against the presented nonce together with
the 4-minute freshness bound, base58 decoding of key and signature, the
tweetnacl verification, token minting with the derived per-identity secret,
and the `put` that replaces the stored item with the refresh-token item. -/
def generateTokens (cfg : Config) (oracle : String → List Nat → List Nat → Bool)
    (body : AuthRequest) (nonceCookie : Option Carrier) (store : Store)
    (nowMs : Int) : Response × Store :=
  match body.publicKey, body.signature, body.nonce, body.isoTimestamp with
  | some pk, some sigStr, some n, some iso =>
      if pk = "" ∨ sigStr = "" ∨ n = "" ∨ iso = "" then
        ({ statusCode := 400,
           error := some "Missing required parameters (publicKey, signature, nonce, isoTimestamp)" },
         store)
      else
        match nonceCookie with
        | none => ({ statusCode := 401, error := some "Nonce not found in cookies" }, store)
        | some car =>
            if car.nonce ≠ n ∨ car.issuedAt < nowMs - 240000 then
              ({ statusCode := 403, error := some "Invalid or expired nonce" }, store)
            else
              match bs58decode pk with
              | Except.error e =>
                  ({ statusCode := 500, error := some "Failed to generate tokens",
                     message := some e }, store)
              | Except.ok pkBytes =>
                  match bs58decode sigStr with
                  | Except.error e =>
                      ({ statusCode := 500, error := some "Failed to generate tokens",
                         message := some e }, store)
                  | Except.ok sigBytes =>
                      match naclDetachedVerify oracle (challengeMessage n pk iso)
                          sigBytes pkBytes with
                      | Except.error e =>
                          ({ statusCode := 500, error := some "Failed to generate tokens",
                             message := some e }, store)
                      | Except.ok false =>
                          ({ statusCode := 401,
                             error := some "Signature verification failed" }, store)
                      | Except.ok true =>
                          let key := encodePublicKey cfg.accessTokenSecret pk
                          let access := jwtSign pk key nowMs 604800
                          let refresh := jwtSign pk key nowMs 2592000
                          ({ statusCode := 200, accessToken := some access,
                             setRefreshCookie := some refresh },
                           Store.put store
                             { publicKey := pk, nonce := none,
                               refreshToken := some refresh, createdAt := none,
                               updatedAt := some nowMs })
  | _, _, _, _ =>
      ({ statusCode := 400,
         error := some "Missing required parameters (publicKey, signature, nonce, isoTimestamp)" },
       store)

/-- Models POST /refresh (user-manager refreshToken): reads the refresh-token
cookie, decodes the subject without trusting the signature, verifies the token
against the derived per-identity secret, and on success mints a new pair and
merges the new refresh token into the item with `update` (upserting when the
item is absent).  No comparison against the stored refreshToken and no
existence check is performed. -/
def refreshToken (cfg : Config) (cookie : Option Jwt) (store : Store)
    (nowMs : Int) : Response × Store :=
  match cookie with
  | none => ({ statusCode := 403, error := some "Refresh token not found" }, store)
  | some tok =>
      if tok.sub = "" then
        ({ statusCode := 403, error := some "Invalid refresh token format" }, store)
      else
        let key := encodePublicKey cfg.accessTokenSecret tok.sub
        if jwtValid tok key nowMs then
          let newAccess := jwtSign tok.sub key nowMs 604800
          let newRefresh := jwtSign tok.sub key nowMs 2592000
          ({ statusCode := 200, accessToken := some newAccess,
             setRefreshCookie := some newRefresh },
           Store.updateRefresh store tok.sub newRefresh nowMs)
        else
          ({ statusCode := 403, error := some "Invalid or expired refresh token" }, store)

/-- Models GET /user (user-manager getUser): reads the bearer token, decodes
the subject, verifies the token against the derived per-identity secret, then
looks the item up and returns the public profile fields. -/
def getUser (cfg : Config) (authToken : Option Jwt) (store : Store)
    (nowMs : Int) : Response :=
  match authToken with
  | none => { statusCode := 401, error := some "Unauthorized: No token provided" }
  | some tok =>
      if tok.sub = "" then
        { statusCode := 401, error := some "Invalid token format" }
      else
        let key := encodePublicKey cfg.accessTokenSecret tok.sub
        if jwtValid tok key nowMs then
          match Store.get store tok.sub with
          | none => { statusCode := 404, error := some "User not found" }
          | some r =>
              { statusCode := 200,
                userBody := some (r.publicKey, r.createdAt, r.updatedAt) }
        else
          { statusCode := 401, error := some "Unauthorized: Invalid token" }

/-- Models the top-level catch of the Lambda handler (user-manager index.js
lines 136-148): an unexpected exception with message `m` is mapped to a 500
response whose body carries `error: "Internal server error"` together with
`message: error.message`. -/
def lambdaCatch (m : String) : Response :=
  { statusCode := 500, error := some "Internal server error", message := some m }


/-- AES S-box (the 256-entry substitution table of FIPS-197). -/
def sboxTable : List Nat := [
  99, 124, 119, 123, 242, 107, 111, 197, 48, 1, 103, 43, 254, 215, 171, 118,
  202, 130, 201, 125, 250, 89, 71, 240, 173, 212, 162, 175, 156, 164, 114, 192,
  183, 253, 147, 38, 54, 63, 247, 204, 52, 165, 229, 241, 113, 216, 49, 21,
  4, 199, 35, 195, 24, 150, 5, 154, 7, 18, 128, 226, 235, 39, 178, 117,
  9, 131, 44, 26, 27, 110, 90, 160, 82, 59, 214, 179, 41, 227, 47, 132,
  83, 209, 0, 237, 32, 252, 177, 91, 106, 203, 190, 57, 74, 76, 88, 207,
  208, 239, 170, 251, 67, 77, 51, 133, 69, 249, 2, 127, 80, 60, 159, 168,
  81, 163, 64, 143, 146, 157, 56, 245, 188, 182, 218, 33, 16, 255, 243, 210,
  205, 12, 19, 236, 95, 151, 68, 23, 196, 167, 126, 61, 100, 93, 25, 115,
  96, 129, 79, 220, 34, 42, 144, 136, 70, 238, 184, 20, 222, 94, 11, 219,
  224, 50, 58, 10, 73, 6, 36, 92, 194, 211, 172, 98, 145, 149, 228, 121,
  231, 200, 55, 109, 141, 213, 78, 169, 108, 86, 244, 234, 101, 122, 174, 8,
  186, 120, 37, 46, 28, 166, 180, 198, 232, 221, 116, 31, 75, 189, 139, 138,
  112, 62, 181, 102, 72, 3, 246, 14, 97, 53, 87, 185, 134, 193, 29, 158,
  225, 248, 152, 17, 105, 217, 142, 148, 155, 30, 135, 233, 206, 85, 40, 223,
  140, 161, 137, 13, 191, 230, 66, 104, 65, 153, 45, 15, 176, 84, 187, 22]

/-- S-box lookup. -/
def sbox (b : Nat) : Nat := sboxTable.getD b 0

/-- Multiplication by x in GF(256) modulo the AES polynomial. -/
def xtime (b : Nat) : Nat :=
  if b < 128 then 2 * b else Nat.xor (2 * b - 256) 27

/-- Multiplication by 3 in GF(256). -/
def gmul3 (b : Nat) : Nat := Nat.xor (xtime b) b

/-- One 16-byte AES state or round-key block, in the byte order of the
input stream (bytes 0-3 form column 0, and so on). -/
structure Block where
  b0 : Nat
  b1 : Nat
  b2 : Nat
  b3 : Nat
  b4 : Nat
  b5 : Nat
  b6 : Nat
  b7 : Nat
  b8 : Nat
  b9 : Nat
  b10 : Nat
  b11 : Nat
  b12 : Nat
  b13 : Nat
  b14 : Nat
  b15 : Nat
deriving Repr, DecidableEq

/-- Packs the first 16 bytes of a list into a Block (CBC only ever passes
exact 16-byte chunks). -/
def listToBlock (l : List Nat) : Block :=
  { b0 := l.getD 0 0, b1 := l.getD 1 0, b2 := l.getD 2 0, b3 := l.getD 3 0,
    b4 := l.getD 4 0, b5 := l.getD 5 0, b6 := l.getD 6 0, b7 := l.getD 7 0,
    b8 := l.getD 8 0, b9 := l.getD 9 0, b10 := l.getD 10 0, b11 := l.getD 11 0,
    b12 := l.getD 12 0, b13 := l.getD 13 0, b14 := l.getD 14 0, b15 := l.getD 15 0 }

/-- Unpacks a Block into its 16 bytes. -/
def blockToList (s : Block) : List Nat :=
  [s.b0, s.b1, s.b2, s.b3, s.b4, s.b5, s.b6, s.b7,
   s.b8, s.b9, s.b10, s.b11, s.b12, s.b13, s.b14, s.b15]

/-- AES SubBytes. -/
def subBytes (s : Block) : Block :=
  { b0 := sbox s.b0, b1 := sbox s.b1, b2 := sbox s.b2, b3 := sbox s.b3,
    b4 := sbox s.b4, b5 := sbox s.b5, b6 := sbox s.b6, b7 := sbox s.b7,
    b8 := sbox s.b8, b9 := sbox s.b9, b10 := sbox s.b10, b11 := sbox s.b11,
    b12 := sbox s.b12, b13 := sbox s.b13, b14 := sbox s.b14, b15 := sbox s.b15 }

/-- AES ShiftRows, expressed on the flat column-major byte order. -/
def shiftRows (s : Block) : Block :=
  { b0 := s.b0, b1 := s.b5, b2 := s.b10, b3 := s.b15,
    b4 := s.b4, b5 := s.b9, b6 := s.b14, b7 := s.b3,
    b8 := s.b8, b9 := s.b13, b10 := s.b2, b11 := s.b7,
    b12 := s.b12, b13 := s.b1, b14 := s.b6, b15 := s.b11 }

/-- AES MixColumns applied to one column. -/
def mixColumn (a b c d : Nat) : Nat × Nat × Nat × Nat :=
  (Nat.xor (Nat.xor (xtime a) (gmul3 b)) (Nat.xor c d),
   Nat.xor (Nat.xor a (xtime b)) (Nat.xor (gmul3 c) d),
   Nat.xor (Nat.xor a b) (Nat.xor (xtime c) (gmul3 d)),
   Nat.xor (Nat.xor (gmul3 a) b) (Nat.xor c (xtime d)))

/-- AES MixColumns. -/
def mixColumns (s : Block) : Block :=
  match mixColumn s.b0 s.b1 s.b2 s.b3, mixColumn s.b4 s.b5 s.b6 s.b7,
        mixColumn s.b8 s.b9 s.b10 s.b11, mixColumn s.b12 s.b13 s.b14 s.b15 with
  | (c0, c1, c2, c3), (c4, c5, c6, c7), (c8, c9, c10, c11), (c12, c13, c14, c15) =>
      { b0 := c0, b1 := c1, b2 := c2, b3 := c3,
        b4 := c4, b5 := c5, b6 := c6, b7 := c7,
        b8 := c8, b9 := c9, b10 := c10, b11 := c11,
        b12 := c12, b13 := c13, b14 := c14, b15 := c15 }

/-- Bytewise xor of two blocks (AddRoundKey and the CBC chaining xor). -/
def xorBlock (s t : Block) : Block :=
  { b0 := Nat.xor s.b0 t.b0, b1 := Nat.xor s.b1 t.b1,
    b2 := Nat.xor s.b2 t.b2, b3 := Nat.xor s.b3 t.b3,
    b4 := Nat.xor s.b4 t.b4, b5 := Nat.xor s.b5 t.b5,
    b6 := Nat.xor s.b6 t.b6, b7 := Nat.xor s.b7 t.b7,
    b8 := Nat.xor s.b8 t.b8, b9 := Nat.xor s.b9 t.b9,
    b10 := Nat.xor s.b10 t.b10, b11 := Nat.xor s.b11 t.b11,
    b12 := Nat.xor s.b12 t.b12, b13 := Nat.xor s.b13 t.b13,
    b14 := Nat.xor s.b14 t.b14, b15 := Nat.xor s.b15 t.b15 }

/-- Key-schedule word: four bytes. -/
abbrev Word := Nat × Nat × Nat × Nat

/-- SubWord of the AES key schedule. -/
def subWord : Word → Word
  | (a, b, c, d) => (sbox a, sbox b, sbox c, sbox d)

/-- RotWord of the AES key schedule. -/
def rotWord : Word → Word
  | (a, b, c, d) => (b, c, d, a)

/-- Bytewise xor of two key-schedule words. -/
def xorWord : Word → Word → Word
  | (a, b, c, d), (e, f, g, h) => (Nat.xor a e, Nat.xor b f, Nat.xor c g, Nat.xor d h)

/-- Round constants rcon(1) .. rcon(7) used by the AES-256 schedule. -/
def rcon (i : Nat) : Nat := [0, 1, 2, 4, 8, 16, 32, 64].getD i 0

/-- The first 8 key-schedule words, read off a 32-byte key. -/
def initWords (key : List Nat) : List Word :=
  (List.range 8).map (fun j =>
    (key.getD (4 * j) 0, key.getD (4 * j + 1) 0,
     key.getD (4 * j + 2) 0, key.getD (4 * j + 3) 0))

/-- Extends the key schedule by `k` further words (FIPS-197 AES-256 rule:
every 8th word passes through RotWord, SubWord and the round constant, the
word 4 positions later through SubWord alone). -/
def expandWords (ws : List Word) : Nat → List Word
  | 0 => ws
  | k + 1 =>
      let prev := expandWords ws k
      let i := prev.length
      let temp := prev.getD (i - 1) (0, 0, 0, 0)
      let temp2 :=
        if i % 8 = 0 then xorWord (subWord (rotWord temp)) (rcon (i / 8), 0, 0, 0)
        else if i % 8 = 4 then subWord temp
        else temp
      prev ++ [xorWord (prev.getD (i - 8) (0, 0, 0, 0)) temp2]

/-- Round key `r` assembled from key-schedule words `4r .. 4r+3`, laid out
column-major like the state. -/
def roundKey (ws : List Word) (r : Nat) : Block :=
  match ws.getD (4 * r) (0, 0, 0, 0), ws.getD (4 * r + 1) (0, 0, 0, 0),
        ws.getD (4 * r + 2) (0, 0, 0, 0), ws.getD (4 * r + 3) (0, 0, 0, 0) with
  | (a0, a1, a2, a3), (b0, b1, b2, b3), (c0, c1, c2, c3), (d0, d1, d2, d3) =>
      { b0 := a0, b1 := a1, b2 := a2, b3 := a3,
        b4 := b0, b5 := b1, b6 := b2, b7 := b3,
        b8 := c0, b9 := c1, b10 := c2, b11 := c3,
        b12 := d0, b13 := d1, b14 := d2, b15 := d3 }

/-- AES-256 block encryption: initial AddRoundKey, 13 full rounds, and the
final round without MixColumns. -/
def aesEncryptBlock (key : List Nat) (blk : Block) : Block :=
  let ws := expandWords (initWords key) 52
  let st0 := xorBlock blk (roundKey ws 0)
  let st13 := (List.range 13).foldl
    (fun st j => xorBlock (mixColumns (shiftRows (subBytes st))) (roundKey ws (j + 1)))
    st0
  xorBlock (shiftRows (subBytes st13)) (roundKey ws 14)

/-- PKCS#7 padding to a multiple of 16 bytes (what the Node cipher applies
between update and final). -/
def pkcs7pad (m : List Nat) : List Nat :=
  m ++ List.replicate (16 - m.length % 16) (16 - m.length % 16)

/-- Splits a list into 16-byte chunks, with a fuel bound keeping the
recursion structural so that the kernel can evaluate it. -/
def chunk16Fuel : Nat → List Nat → List (List Nat)
  | 0, _ => []
  | _ + 1, [] => []
  | fuel + 1, a :: rest => ((a :: rest).take 16) :: chunk16Fuel fuel ((a :: rest).drop 16)

/-- Splits a list into 16-byte chunks; each step consumes at least one
element, so the length of the list is enough fuel. -/
def chunk16 (l : List Nat) : List (List Nat) := chunk16Fuel l.length l

/-- CBC chaining over a list of plaintext blocks. -/
def cbcChain (key : List Nat) (prev : Block) : List Block → List Block
  | [] => []
  | p :: rest =>
      let c := aesEncryptBlock key (xorBlock p prev)
      c :: cbcChain key c rest

/-- AES-256-CBC encryption with PKCS#7 padding of a byte string, as performed
by Node createCipheriv("aes-256-cbc", key, iv) with update plus final. -/
def cbcEncrypt (key ivBytes m : List Nat) : List Nat :=
  (cbcChain key (listToBlock ivBytes) ((chunk16 (pkcs7pad m)).map listToBlock)).foldr
    (fun b acc => blockToList b ++ acc) []

/-- Lowercase hex digit. -/
def hexDigit (n : Nat) : Char := "0123456789abcdef".toList.getD n '0'

/-- Hex encoding of a byte list, two lowercase digits per byte (the "hex"
output encoding of the Node cipher). -/
def hexEncode (l : List Nat) : String :=
  String.mk ((l.map (fun b => [hexDigit (b / 16), hexDigit (b % 16)])).flatten)

/-- UTF-8 bytes of an ASCII string (public keys are base58 text, so ASCII). -/
def strBytes (s : String) : List Nat := s.toList.map Char.toNat

/-- Source src/jwt-auth/deployment/jwt-validator/index.js lines 18-23: the
authorizer derives the per-identity JWT secret by AES-256-CBC-encrypting the
public key under the GM_TYPE key and IV environment values and hex-encoding
the ciphertext. -/
def validatorEncodePublicKey (gmKey ivBytes : List Nat) (publicKey : String) : String :=
  hexEncode (cbcEncrypt gmKey ivBytes (strBytes publicKey))

/-- Source jwt-validator/index.js lines 34-47 (authenticateJWT): decode the
subject, derive the secret by encryption, verify; failures become the error
"Invalid or expired token". -/
def authenticateJWT (gmKey ivBytes : List Nat) (token : Option Jwt)
    (nowMs : Int) : Except String Jwt :=
  match token with
  | none => Except.error "No token provided"
  | some t =>
      if jwtValid t (validatorEncodePublicKey gmKey ivBytes t.sub) nowMs then
        Except.ok t
      else
        Except.error "Invalid or expired token"

/-! Helper lemmas about the store model. -/

/-- Reading back the key just written by `put` returns the new item. -/
theorem Store.get_put_self (s : Store) (r : Record) : (s.put r).get r.publicKey = some r := by
  simp [Store.get, Store.put]

/-- Reading any other key after `put` sees the old table. -/
theorem Store.get_put_other (s : Store) (r : Record) (k : String) (h : ¬ k = r.publicKey) :
    (s.put r).get k = s.get k := by
  have hrk : (r.publicKey == k) = false := by
    simp
    exact fun hk => h hk.symm
  simp only [Store.get, Store.put]
  rw [List.find?_cons_of_neg _ (by simp [hrk])]
  induction s with
  | nil => simp
  | cons x xs ih =>
      by_cases hx : x.publicKey = r.publicKey
      · have hxk : (x.publicKey == k) = false := by rw [hx]; exact hrk
        simp [List.filter_cons, hx, List.find?_cons, hxk, hrk, ih]
      · have hxr : (x.publicKey == r.publicKey) = false := by simp [hx]
        simp only [List.filter_cons, hxr, Bool.not_false, if_pos]
        by_cases hk : x.publicKey = k
        · simp [List.find?_cons, hk]
        · simp [List.find?_cons, hk, ih]

/-- Variant of `Store.get_put_self` keyed by an equation on the primary key,
in a shape usable as a simp rewrite. -/
theorem Store.get_put_self_eq (s : Store) (r : Record) (k : String)
    (hk : r.publicKey = k) : (s.put r).get k = some r := by
  subst hk
  exact Store.get_put_self s r

/-- `put` never deletes: every key present before is present after. -/
theorem Store.get_put_isSome (s : Store) (r : Record) (k : String)
    (h : (s.get k).isSome) : ((s.put r).get k).isSome := by
  by_cases hk : k = r.publicKey
  · subst hk
    simp [Store.get_put_self]
  · rw [Store.get_put_other s r k hk]
    exact h

/-! Concrete values used by witnesses and counterexamples. -/

/-- Base58 string of 32 alphabet-zero characters: decodes to 32 zero bytes,
a well-sized ed25519 public key. -/
def pk32 : String := "11111111111111111111111111111111"

/-- Base58 string of 64 alphabet-zero characters: decodes to 64 zero bytes,
a well-sized detached signature. -/
def sig64 : String :=
  "1111111111111111111111111111111111111111111111111111111111111111"

/-- Base58 string of 63 alphabet-zero characters: decodes to 63 bytes, one
short of a valid signature. -/
def sig63 : String :=
  "111111111111111111111111111111111111111111111111111111111111111"

/-- Signature oracle that accepts everything, standing for a correctly signed
challenge. -/
def oracleTrue : String → List Nat → List Nat → Bool := fun _ _ _ => true

/-- Configuration with the hardcoded fallback secret of the source. -/
def cfg0 : Config := { accessTokenSecret := "default_secret" }

/-- All-zero 32-byte AES key for the validator model. -/
def zKey : List Nat := List.replicate 32 0

/-- All-zero 16-byte IV for the validator model. -/
def zIv : List Nat := List.replicate 16 0

/-! Helper lemmas about generateTokens. -/

/-- Reduction of the full success path of generateTokens: with all fields
present, a carrier matching the presented nonce inside the freshness window,
well-sized base58 decodes and an accepting signature verdict, the handler
mints the 7-day access and 30-day refresh tokens under the derived secret and
replaces the stored item with the refresh-token item. -/
theorem generateTokens_success (cfg : Config)
    (oracle : String → List Nat → List Nat → Bool) (pk sig n iso : String)
    (car : Carrier) (store : Store) (nowMs : Int) (pkB sigB : List Nat)
    (hpk : pk ≠ "") (hs : sig ≠ "") (hn : n ≠ "") (hi : iso ≠ "")
    (hcar : car.nonce = n) (hfresh : ¬ car.issuedAt < nowMs - 240000)
    (hdp : bs58decode pk = Except.ok pkB) (hds : bs58decode sig = Except.ok sigB)
    (hls : sigB.length = 64) (hlp : pkB.length = 32)
    (hor : oracle (challengeMessage n pk iso) sigB pkB = true) :
    generateTokens cfg oracle
        { publicKey := some pk, signature := some sig, nonce := some n,
          isoTimestamp := some iso } (some car) store nowMs =
      ({ statusCode := 200,
         accessToken :=
           some (jwtSign pk (encodePublicKey cfg.accessTokenSecret pk) nowMs 604800),
         setRefreshCookie :=
           some (jwtSign pk (encodePublicKey cfg.accessTokenSecret pk) nowMs 2592000) },
       Store.put store
         { publicKey := pk, nonce := none,
           refreshToken :=
             some (jwtSign pk (encodePublicKey cfg.accessTokenSecret pk) nowMs 2592000),
           createdAt := none, updatedAt := some nowMs }) := by
  simp [generateTokens, hpk, hs, hn, hi, hcar, hfresh, hdp, hds,
    naclDetachedVerify, hls, hlp, hor]

/-- On the fresh-and-matching path the handler can only answer 500 (decode or
length failure), 401 (rejected signature) or 200 (success), never the 403 of
the nonce check. -/
theorem generateTokens_fresh_not403 (cfg : Config)
    (oracle : String → List Nat → List Nat → Bool) (pk sig n iso : String)
    (car : Carrier) (store : Store) (nowMs : Int)
    (hpk : pk ≠ "") (hs : sig ≠ "") (hn : n ≠ "") (hi : iso ≠ "")
    (hcar : car.nonce = n) (hfresh : ¬ car.issuedAt < nowMs - 240000) :
    (generateTokens cfg oracle
        { publicKey := some pk, signature := some sig, nonce := some n,
          isoTimestamp := some iso } (some car) store nowMs).fst.statusCode ≠ 403 := by
  simp only [generateTokens]
  rw [if_neg (by simp [hpk, hs, hn, hi])]
  rw [if_neg (by simp [hcar, hfresh])]
  cases hdp : bs58decode pk with
  | error e => simp
  | ok pkB =>
      cases hds : bs58decode sig with
      | error e => simp
      | ok sigB =>
          cases hv : naclDetachedVerify oracle (challengeMessage n pk iso) sigB pkB with
          | error e => simp [hv]
          | ok b => cases b <;> simp [hv]

set_option maxRecDepth 100000

/-! Concrete scenario values shared by several witnesses. -/

/-- Request body of an authenticate call binding the nonce "N". -/
def c1Body : AuthRequest :=
  { publicKey := some pk32, signature := some sig64, nonce := some "N",
    isoTimestamp := some "2026-01-01T00:00:00Z" }

/-- Carrier issued for nonce "N" at epoch millisecond 1000000. -/
def c1Car : Carrier := { nonce := "N", issuedAt := 1000000 }

/-- C1: a second Authenticate with the same nonce and the same carrier must
fail after the first success.  The code never consumes the nonce (the carrier
is only compared with the request body, the store is not consulted), so both
the first and the replayed call inside the freshness window return 200. -/
theorem C1_second_authenticate_succeeds :
    (createNonce (some pk32) "N" [] 1000000).fst.setNonceCookie = some c1Car ∧
    (generateTokens cfg0 oracleTrue c1Body (some c1Car)
        (createNonce (some pk32) "N" [] 1000000).snd 1001000).fst.statusCode = 200 ∧
    (generateTokens cfg0 oracleTrue c1Body (some c1Car)
        (generateTokens cfg0 oracleTrue c1Body (some c1Car)
            (createNonce (some pk32) "N" [] 1000000).snd 1001000).snd
        1002000).fst.statusCode = 200 := by
  decide

/-- Derived per-identity secret of the C2 scenario. -/
def c2Key : String := encodePublicKey "default_secret" pk32

/-- Pre-rotation refresh token of the C2 scenario. -/
def c2Old : Jwt := jwtSign pk32 c2Key 1000000 2592000

/-- Currently stored (post-rotation) refresh token of the C2 scenario. -/
def c2New : Jwt := jwtSign pk32 c2Key 200000000 2592000

/-- Store of the C2 scenario: the identity record holds the rotated token. -/
def c2Store : Store :=
  [{ publicKey := pk32, nonce := none, refreshToken := some c2New,
     createdAt := some 1000, updatedAt := some 200000000 }]

/-- C2 counterexample: a validly signed, unexpired refresh token different
from the stored one is accepted with 200, not rejected with 403. -/
theorem C2_counterexample :
    c2Old ≠ c2New ∧
    Store.get c2Store pk32 =
      some { publicKey := pk32, nonce := none, refreshToken := some c2New,
             createdAt := some 1000, updatedAt := some 200000000 } ∧
    (refreshToken cfg0 (some c2Old) c2Store 300000000).fst.statusCode = 200 := by
  decide

/-- C2 amended: the refresh handler never compares the presented token with
the stored refreshToken; any token whose recorded secret matches the derived
per-identity secret and whose TTL has not elapsed is rotated with 200,
whatever the store contains. -/
theorem C2_refresh_ignores_store (cfg : Config) (tok : Jwt) (store : Store)
    (nowMs : Int) (hsub : tok.sub ≠ "")
    (hkey : tok.key = encodePublicKey cfg.accessTokenSecret tok.sub)
    (hexp : Int.ediv nowMs 1000 < tok.expSec) :
    (refreshToken cfg (some tok) store nowMs).fst.statusCode = 200 ∧
    (refreshToken cfg (some tok) store nowMs).fst.accessToken =
      some (jwtSign tok.sub (encodePublicKey cfg.accessTokenSecret tok.sub)
        nowMs 604800) := by
  simp [refreshToken, hsub, jwtValid, hkey, hexp]

/-- C2 witness: the amended theorem applied to the concrete C2 scenario. -/
theorem C2_refresh_ignores_store_witness :
    (refreshToken cfg0 (some c2Old) c2Store 300000000).fst.statusCode = 200 ∧
    (refreshToken cfg0 (some c2Old) c2Store 300000000).fst.accessToken =
      some (jwtSign pk32 (encodePublicKey "default_secret" pk32) 300000000 604800) := by
  have h := C2_refresh_ignores_store cfg0 c2Old c2Store 300000000
    (by decide) (by decide) (by decide)
  exact ⟨h.1, h.2.trans rfl⟩

/-- Store of the C3 scenario: the record holds nonce "M" while carrier and
request both carry "N". -/
def c3Store : Store :=
  [{ publicKey := pk32, nonce := some "M", refreshToken := none,
     createdAt := some 500, updatedAt := some 500 }]

/-- C3 counterexample: the stored nonce differs from both the decrypted and
the presented nonce, yet redemption succeeds with 200 because the handler
never reads the stored nonce. -/
theorem C3_counterexample :
    Store.get c3Store pk32 =
      some { publicKey := pk32, nonce := some "M", refreshToken := none,
             createdAt := some 500, updatedAt := some 500 } ∧
    (generateTokens cfg0 oracleTrue c1Body (some c1Car) c3Store
        1001000).fst.statusCode = 200 := by
  decide

/-- C3 amended: redemption compares only the decrypted carrier nonce with the
nonce presented in the body; when they differ the call fails with 403
"Invalid or expired nonce" and the store is left untouched.  The stored nonce
is never consulted. -/
theorem C3_decrypted_vs_presented (cfg : Config)
    (oracle : String → List Nat → List Nat → Bool) (pk sig n iso : String)
    (car : Carrier) (store : Store) (nowMs : Int)
    (hpk : pk ≠ "") (hs : sig ≠ "") (hn : n ≠ "") (hi : iso ≠ "")
    (hne : car.nonce ≠ n) :
    generateTokens cfg oracle
        { publicKey := some pk, signature := some sig, nonce := some n,
          isoTimestamp := some iso } (some car) store nowMs =
      ({ statusCode := 403, error := some "Invalid or expired nonce" }, store) := by
  simp [generateTokens, hpk, hs, hn, hi, hne]

/-- C3 witness: the amended theorem at a concrete mismatching input. -/
theorem C3_decrypted_vs_presented_witness :
    generateTokens cfg0 oracleTrue
        { publicKey := some pk32, signature := some sig64, nonce := some "N",
          isoTimestamp := some "T" } (some { nonce := "X", issuedAt := 1000000 })
        c3Store 1001000 =
      ({ statusCode := 403, error := some "Invalid or expired nonce" }, c3Store) := by
  exact C3_decrypted_vs_presented cfg0 oracleTrue pk32 sig64 "N" "T"
    { nonce := "X", issuedAt := 1000000 } c3Store 1001000
    (by decide) (by decide) (by decide) (by decide) (by decide)

/-- C5 counterexample: a 63-byte signature does not make the verifier return
false; tweetnacl throws "bad signature size" and the handler catch converts
it into a 500, not the 401 of a false verdict. -/
theorem C5_counterexample :
    naclDetachedVerify oracleTrue "m" (List.replicate 63 0) (List.replicate 32 0) =
      Except.error "bad signature size" ∧
    (generateTokens cfg0 oracleTrue
        { publicKey := some pk32, signature := some sig63, nonce := some "N",
          isoTimestamp := some "T" } (some c1Car) [] 1001000).fst =
      { statusCode := 500, error := some "Failed to generate tokens",
        message := some "bad signature size" } := by
  exact ⟨rfl, by decide⟩

/-- C5 amended: verification is total only on well-sized inputs.  A 64-byte
signature with a 32-byte key yields the boolean verdict; a wrong-length
signature or key makes the library throw instead of returning false. -/
theorem C5_fail_closed (oracle : String → List Nat → List Nat → Bool)
    (msg : String) (sig pk : List Nat) :
    (sig.length = 64 → pk.length = 32 →
      naclDetachedVerify oracle msg sig pk = Except.ok (oracle msg sig pk)) ∧
    (sig.length ≠ 64 →
      naclDetachedVerify oracle msg sig pk = Except.error "bad signature size") ∧
    (sig.length = 64 → pk.length ≠ 32 →
      naclDetachedVerify oracle msg sig pk = Except.error "bad public key size") := by
  refine ⟨fun h1 h2 => ?_, fun h1 => ?_, fun h1 h2 => ?_⟩ <;>
    simp [naclDetachedVerify, h1]
  · simp [h2]
  · simp [h2]

/-- C5 witness: the amended theorem at concrete well-sized and wrong-sized
inputs. -/
theorem C5_fail_closed_witness :
    naclDetachedVerify oracleTrue "m" (List.replicate 64 0) (List.replicate 32 0) =
      Except.ok true ∧
    naclDetachedVerify oracleTrue "m" (List.replicate 63 0) (List.replicate 32 0) =
      Except.error "bad signature size" := by
  constructor
  · have h := (C5_fail_closed oracleTrue "m" (List.replicate 64 0)
      (List.replicate 32 0)).1 (by decide) (by decide)
    exact h.trans rfl
  · exact (C5_fail_closed oracleTrue "m" (List.replicate 63 0)
      (List.replicate 32 0)).2.1 (by decide)

/-- Validly signed, unexpired refresh token of the C6 scenario. -/
def c6Tok : Jwt := jwtSign pk32 (encodePublicKey "default_secret" pk32) 1000000 2592000

/-- C6 counterexample: with no identity record in the store, refresh does not
fail with an unknown-subject error; it answers 200 and upserts a fresh
record. -/
theorem C6_counterexample :
    Store.get [] pk32 = none ∧
    (refreshToken cfg0 (some c6Tok) [] 2000000).fst.statusCode = 200 ∧
    (Store.get (refreshToken cfg0 (some c6Tok) [] 2000000).snd pk32).isSome = true := by
  decide

/-- C6 amended: the refresh handler performs no existence check; on a validly
signed, unexpired token for an absent subject it answers 200 and the update
creates the identity record holding only the new refreshToken and updatedAt. -/
theorem C6_refresh_upserts_unknown (cfg : Config) (tok : Jwt) (store : Store)
    (nowMs : Int) (hsub : tok.sub ≠ "")
    (habsent : Store.get store tok.sub = none)
    (hkey : tok.key = encodePublicKey cfg.accessTokenSecret tok.sub)
    (hexp : Int.ediv nowMs 1000 < tok.expSec) :
    (refreshToken cfg (some tok) store nowMs).fst.statusCode = 200 ∧
    Store.get (refreshToken cfg (some tok) store nowMs).snd tok.sub =
      some { publicKey := tok.sub, nonce := none,
             refreshToken :=
               some (jwtSign tok.sub (encodePublicKey cfg.accessTokenSecret tok.sub)
                 nowMs 2592000),
             createdAt := none, updatedAt := some nowMs } := by
  constructor
  · simp [refreshToken, hsub, jwtValid, hkey, hexp]
  · simp only [refreshToken]
    rw [if_neg hsub, if_pos ⟨hkey, hexp⟩]
    simp only [Store.updateRefresh, habsent]
    exact Store.get_put_self store _

/-- C6 witness: the amended theorem on the empty store. -/
theorem C6_refresh_upserts_unknown_witness :
    (refreshToken cfg0 (some c6Tok) [] 2000000).fst.statusCode = 200 ∧
    Store.get (refreshToken cfg0 (some c6Tok) [] 2000000).snd pk32 =
      some { publicKey := pk32, nonce := none,
             refreshToken :=
               some (jwtSign pk32 (encodePublicKey "default_secret" pk32) 2000000 2592000),
             createdAt := none, updatedAt := some 2000000 } := by
  have h := C6_refresh_upserts_unknown cfg0 c6Tok [] 2000000
    (by decide) (by decide) (by decide) (by decide)
  have h2 := h.2
  rw [show c6Tok.sub = pk32 from rfl] at h2
  exact ⟨h.1, h2.trans rfl⟩

/-- C10 counterexample: the top-level catch copies the exception message into
the response body, so the body is not free of the thrown message. -/
theorem C10_counterexample :
    (lambdaCatch "ECONNREFUSED db.internal with password hunter2").statusCode = 500 ∧
    (lambdaCatch "ECONNREFUSED db.internal with password hunter2").message =
      some "ECONNREFUSED db.internal with password hunter2" := by
  decide

/-- C10 amended: the top-level catch maps every unexpected exception to a 500
response whose error field is the generic "Internal server error" but whose
message field carries the exception message verbatim (no stack trace and no
other data). -/
theorem C10_catch_shape (m : String) :
    lambdaCatch m =
      { statusCode := 500, error := some "Internal server error",
        message := some m } := rfl

/-- C8: with all fields present and the decrypted carrier nonce matching the
presented one, the authenticate call answers 403 "Invalid or expired nonce"
exactly when the current time minus the carrier issue time strictly exceeds
the 4-minute window (240000 ms); a redemption at or before exactly 4 minutes
is not rejected for expiry. -/
theorem C8_freshness_window (cfg : Config)
    (oracle : String → List Nat → List Nat → Bool) (pk sig n iso : String)
    (car : Carrier) (store : Store) (nowMs : Int)
    (hpk : pk ≠ "") (hs : sig ≠ "") (hn : n ≠ "") (hi : iso ≠ "")
    (hcar : car.nonce = n) :
    (generateTokens cfg oracle
        { publicKey := some pk, signature := some sig, nonce := some n,
          isoTimestamp := some iso } (some car) store nowMs).fst.statusCode = 403
      ↔ nowMs - car.issuedAt > 240000 := by
  constructor
  · intro h
    by_contra hgt
    have hfresh : ¬ car.issuedAt < nowMs - 240000 := by omega
    exact generateTokens_fresh_not403 cfg oracle pk sig n iso car store nowMs
      hpk hs hn hi hcar hfresh h
  · intro hgt
    have hexp : car.issuedAt < nowMs - 240000 := by omega
    simp [generateTokens, hpk, hs, hn, hi, hexp]

/-- C8 witness: at 301 seconds after issuance the call is rejected with 403,
while at exactly 240000 ms after issuance it is not rejected. -/
theorem C8_freshness_window_witness :
    (generateTokens cfg0 oracleTrue
        { publicKey := some pk32, signature := some sig64, nonce := some "N",
          isoTimestamp := some "T" } (some { nonce := "N", issuedAt := 700000 })
        [] 1001000).fst.statusCode = 403 ∧
    ¬ (generateTokens cfg0 oracleTrue
        { publicKey := some pk32, signature := some sig64, nonce := some "N",
          isoTimestamp := some "T" } (some { nonce := "N", issuedAt := 761000 })
        [] 1001000).fst.statusCode = 403 := by
  constructor
  · exact (C8_freshness_window cfg0 oracleTrue pk32 sig64 "N" "T"
      { nonce := "N", issuedAt := 700000 } [] 1001000
      (by decide) (by decide) (by decide) (by decide) rfl).mpr (by decide)
  · intro h
    exact absurd ((C8_freshness_window cfg0 oracleTrue pk32 sig64 "N" "T"
      { nonce := "N", issuedAt := 761000 } [] 1001000
      (by decide) (by decide) (by decide) (by decide) rfl).mp h) (by decide)

/-- C7: the access token minted by a successful authenticate call resolves,
at any time before its 7-day TTL elapses, to a 200 response carrying the same
subject as user, on the post-authenticate store; resolving the same token at
any time from TTL expiry onwards fails with 401. -/
theorem C7_mint_resolve (cfg : Config)
    (oracle : String → List Nat → List Nat → Bool) (pk sig n iso : String)
    (car : Carrier) (store : Store) (t0 now1 now2 : Int) (pkB sigB : List Nat)
    (hpk : pk ≠ "") (hs : sig ≠ "") (hn : n ≠ "") (hi : iso ≠ "")
    (hcar : car.nonce = n) (hfresh : ¬ car.issuedAt < t0 - 240000)
    (hdp : bs58decode pk = Except.ok pkB) (hds : bs58decode sig = Except.ok sigB)
    (hls : sigB.length = 64) (hlp : pkB.length = 32)
    (hor : oracle (challengeMessage n pk iso) sigB pkB = true)
    (h1 : Int.ediv now1 1000 < Int.ediv t0 1000 + 604800)
    (h2 : ¬ Int.ediv now2 1000 < Int.ediv t0 1000 + 604800) :
    (generateTokens cfg oracle
        { publicKey := some pk, signature := some sig, nonce := some n,
          isoTimestamp := some iso } (some car) store t0).fst.accessToken =
      some (jwtSign pk (encodePublicKey cfg.accessTokenSecret pk) t0 604800) ∧
    getUser cfg
        (generateTokens cfg oracle
          { publicKey := some pk, signature := some sig, nonce := some n,
            isoTimestamp := some iso } (some car) store t0).fst.accessToken
        (generateTokens cfg oracle
          { publicKey := some pk, signature := some sig, nonce := some n,
            isoTimestamp := some iso } (some car) store t0).snd now1 =
      { statusCode := 200, userBody := some (pk, none, some t0) } ∧
    getUser cfg
        (generateTokens cfg oracle
          { publicKey := some pk, signature := some sig, nonce := some n,
            isoTimestamp := some iso } (some car) store t0).fst.accessToken
        (generateTokens cfg oracle
          { publicKey := some pk, signature := some sig, nonce := some n,
            isoTimestamp := some iso } (some car) store t0).snd now2 =
      { statusCode := 401, error := some "Unauthorized: Invalid token" } := by
  rw [generateTokens_success cfg oracle pk sig n iso car store t0 pkB sigB
    hpk hs hn hi hcar hfresh hdp hds hls hlp hor]
  refine ⟨rfl, ?_, ?_⟩
  · simp [getUser, jwtSign, jwtValid, hpk, h1, Store.get_put_self_eq]
  · simp [getUser, jwtSign, jwtValid, hpk, h2]

/-- C7 witness: the round-trip theorem on a concrete successful authenticate
run, resolved before and after the TTL. -/
theorem C7_mint_resolve_witness :
    (generateTokens cfg0 oracleTrue
        { publicKey := some pk32, signature := some sig64, nonce := some "N",
          isoTimestamp := some "T" } (some c1Car) [] 1001000).fst.accessToken =
      some (jwtSign pk32 (encodePublicKey cfg0.accessTokenSecret pk32) 1001000 604800) ∧
    getUser cfg0
        (generateTokens cfg0 oracleTrue
          { publicKey := some pk32, signature := some sig64, nonce := some "N",
            isoTimestamp := some "T" } (some c1Car) [] 1001000).fst.accessToken
        (generateTokens cfg0 oracleTrue
          { publicKey := some pk32, signature := some sig64, nonce := some "N",
            isoTimestamp := some "T" } (some c1Car) [] 1001000).snd 2000000 =
      { statusCode := 200, userBody := some (pk32, none, some 1001000) } ∧
    getUser cfg0
        (generateTokens cfg0 oracleTrue
          { publicKey := some pk32, signature := some sig64, nonce := some "N",
            isoTimestamp := some "T" } (some c1Car) [] 1001000).fst.accessToken
        (generateTokens cfg0 oracleTrue
          { publicKey := some pk32, signature := some sig64, nonce := some "N",
            isoTimestamp := some "T" } (some c1Car) [] 1001000).snd 700000000000 =
      { statusCode := 401, error := some "Unauthorized: Invalid token" } := by
  exact C7_mint_resolve cfg0 oracleTrue pk32 sig64 "N" "T" c1Car [] 1001000
    2000000 700000000000 (List.replicate 32 0) (List.replicate 64 0)
    (by decide) (by decide) (by decide) (by decide) rfl (by decide)
    (by decide) (by decide) (by decide) (by decide) rfl (by decide) (by decide)

/-- Stored refresh token of the C9 scenario. -/
def c9Tok : Jwt := jwtSign pk32 (encodePublicKey "default_secret" pk32) 0 2592000

/-- Store of the C9 scenario: a fully populated identity record. -/
def c9Store : Store :=
  [{ publicKey := pk32, nonce := some "oldN", refreshToken := some c9Tok,
     createdAt := some 5, updatedAt := some 6 }]

/-- C9 counterexample: nonce issuance for an existing identity erases the
stored refreshToken and resets createdAt (the claim says both are left
unchanged), and token issuance erases the stored nonce and createdAt (the
claim says createdAt is left unchanged). -/
theorem C9_counterexample :
    Store.get (createNonce (some pk32) "N2" c9Store 1000000).snd pk32 =
      some { publicKey := pk32, nonce := some "N2", refreshToken := none,
             createdAt := some 1000000, updatedAt := some 1000000 } ∧
    Store.get (generateTokens cfg0 oracleTrue c1Body (some c1Car) c9Store
        1001000).snd pk32 =
      some { publicKey := pk32, nonce := none,
             refreshToken :=
               some (jwtSign pk32 (encodePublicKey "default_secret" pk32) 1001000 2592000),
             createdAt := none, updatedAt := some 1001000 } := by
  decide

/-- C9 amended: createNonce replaces the whole item with the nonce item
(dropping refreshToken and resetting createdAt) and generateTokens replaces
the whole item with the refresh-token item (dropping nonce and createdAt);
other keys are untouched and no operation removes an item. -/
theorem C9_mutation_overwrites (cfg : Config)
    (oracle : String → List Nat → List Nat → Bool) (pk sig n iso : String)
    (car : Carrier) (store : Store) (nowMs : Int) (pkB sigB : List Nat)
    (hpk : pk ≠ "") (hs : sig ≠ "") (hn : n ≠ "") (hi : iso ≠ "")
    (hcar : car.nonce = n) (hfresh : ¬ car.issuedAt < nowMs - 240000)
    (hdp : bs58decode pk = Except.ok pkB) (hds : bs58decode sig = Except.ok sigB)
    (hls : sigB.length = 64) (hlp : pkB.length = 32)
    (hor : oracle (challengeMessage n pk iso) sigB pkB = true) :
    Store.get (createNonce (some pk) n store nowMs).snd pk =
      some { publicKey := pk, nonce := some n, refreshToken := none,
             createdAt := some nowMs, updatedAt := some nowMs } ∧
    (∀ k, ¬ k = pk →
      Store.get (createNonce (some pk) n store nowMs).snd k = Store.get store k) ∧
    (∀ k, (Store.get store k).isSome →
      (Store.get (createNonce (some pk) n store nowMs).snd k).isSome) ∧
    Store.get (generateTokens cfg oracle
        { publicKey := some pk, signature := some sig, nonce := some n,
          isoTimestamp := some iso } (some car) store nowMs).snd pk =
      some { publicKey := pk, nonce := none,
             refreshToken :=
               some (jwtSign pk (encodePublicKey cfg.accessTokenSecret pk) nowMs 2592000),
             createdAt := none, updatedAt := some nowMs } ∧
    (∀ k, ¬ k = pk →
      Store.get (generateTokens cfg oracle
        { publicKey := some pk, signature := some sig, nonce := some n,
          isoTimestamp := some iso } (some car) store nowMs).snd k = Store.get store k) ∧
    (∀ k, (Store.get store k).isSome →
      (Store.get (generateTokens cfg oracle
        { publicKey := some pk, signature := some sig, nonce := some n,
          isoTimestamp := some iso } (some car) store nowMs).snd k).isSome) := by
  have hcn : (createNonce (some pk) n store nowMs).snd =
      Store.put store
        { publicKey := pk, nonce := some n, refreshToken := none,
          createdAt := some nowMs, updatedAt := some nowMs } := by
    simp [createNonce, hpk]
  have hgt := generateTokens_success cfg oracle pk sig n iso car store nowMs pkB sigB
    hpk hs hn hi hcar hfresh hdp hds hls hlp hor
  rw [hcn, hgt]
  exact ⟨Store.get_put_self store _,
    fun k hk => Store.get_put_other store _ k hk,
    fun k hk => Store.get_put_isSome store _ k hk,
    Store.get_put_self store _,
    fun k hk => Store.get_put_other store _ k hk,
    fun k hk => Store.get_put_isSome store _ k hk⟩

/-- C9 witness: the amended theorem on the concrete populated store. -/
theorem C9_mutation_overwrites_witness :
    Store.get (createNonce (some pk32) "N" c9Store 1001000).snd pk32 =
      some { publicKey := pk32, nonce := some "N", refreshToken := none,
             createdAt := some 1001000, updatedAt := some 1001000 } ∧
    Store.get (generateTokens cfg0 oracleTrue
        { publicKey := some pk32, signature := some sig64, nonce := some "N",
          isoTimestamp := some "T" } (some c1Car) c9Store 1001000).snd pk32 =
      some { publicKey := pk32, nonce := none,
             refreshToken :=
               some (jwtSign pk32 (encodePublicKey "default_secret" pk32) 1001000 2592000),
             createdAt := none, updatedAt := some 1001000 } := by
  have h := C9_mutation_overwrites cfg0 oracleTrue pk32 sig64 "N" "T" c1Car
    c9Store 1001000 (List.replicate 32 0) (List.replicate 64 0)
    (by decide) (by decide) (by decide) (by decide) rfl (by decide)
    (by decide) (by decide) (by decide) (by decide) rfl
  exact ⟨h.1, (h.2.2.2.1).trans rfl⟩

/-- C4: the token issuer derives the per-identity secret by string
concatenation while the companion authorizer derives it by AES-256-CBC
encryption of the public key; the two derivations disagree, so the
authorizer rejects a token freshly minted by the issuer even inside its TTL. -/
theorem C4_key_derivations_diverge :
    encodePublicKey "default_secret" "WalletKey42" = "default_secretWalletKe" ∧
    validatorEncodePublicKey zKey zIv "WalletKey42" =
      "967d7183b0c70c8cae4e4c2d5f8fd051" ∧
    encodePublicKey "default_secret" "WalletKey42" ≠
      validatorEncodePublicKey zKey zIv "WalletKey42" ∧
    authenticateJWT zKey zIv
        (some (jwtSign "WalletKey42" (encodePublicKey "default_secret" "WalletKey42")
          1700000000000 604800))
        1700000000000 = Except.error "Invalid or expired token" := by
  refine ⟨rfl, by decide, by decide, ?_⟩
  rfl

end Elna
